import Mathlib

/-!
Verification development for the `sufficient` HTTP file server
(`src/main.rs`).

The file embeds the request-to-response pipeline of the server: the path
resolver (URI validation, percent-decoding, UTF-8 validation, segment
splitting, containment check), the response builder (file serving,
`index.html` handling, directory listing, HEAD handling), the
error-to-status translation, the error cause-chain logger
`log_error_chain`, and the top-level `main`/`serve` control flow.

`main`, `log_error_chain`, the `serve` wrapper and the `Error` enum are
translated from `src/main.rs`.  The bodies of `serve_or_error`,
`transform_error` and the path resolver are called from `src/main.rs`
but their definitions are not part of the source tree; those are
modelled from the spec (each such definition's doc comment says so).

The filesystem is an oracle (`Fs`): canonicalization (symbolic-link
resolution), `stat`, file reads and directory enumeration are arbitrary
functions, so every theorem quantified over `Fs` holds for every
filesystem state, including ones with symbolic links escaping the root.
Filesystem accesses and log lines are recorded explicitly so that
ordering and absence-of-access properties are statable.
-/

/-- Value of a hex digit character, `none` when the character is not a
hex digit.  Mirrors the hex decoding done by percent-decoding. -/
def hexVal (c : Char) : Option Nat :=
  if '0' ≤ c ∧ c ≤ '9' then some (c.toNat - '0'.toNat)
  else if 'a' ≤ c ∧ c ≤ 'f' then some (c.toNat - 'a'.toNat + 10)
  else if 'A' ≤ c ∧ c ≤ 'F' then some (c.toNat - 'A'.toNat + 10)
  else none

/-- UTF-8 encoding of a single Unicode code point, as its byte list. -/
def utf8EncodeChar (n : Nat) : List Nat :=
  if n < 0x80 then [n]
  else if n < 0x800 then [0xC0 + n / 64, 0x80 + n % 64]
  else if n < 0x10000 then [0xE0 + n / 4096, 0x80 + n / 64 % 64, 0x80 + n % 64]
  else [0xF0 + n / 262144, 0x80 + n / 4096 % 64, 0x80 + n / 64 % 64, 0x80 + n % 64]

/-- UTF-8 byte encoding of a string. -/
def strBytes (s : String) : List Nat :=
  s.data.flatMap (fun c => utf8EncodeChar c.toNat)

/-- Whether a byte is a UTF-8 continuation byte (`0x80`–`0xBF`). -/
def isCont (b : Nat) : Bool :=
  0x80 ≤ b ∧ b < 0xC0

/-- Code point assembled from a lead byte payload and continuation
byte payloads. -/
def contVal (b : Nat) : Nat := b - 0x80

/-- Strict UTF-8 decoding of a byte list into characters, rejecting
overlong forms, surrogates and out-of-range code points, as Rust's
`str::from_utf8`/`decode_utf8` does.  Returns `none` on invalid
input. -/
def utf8Decode : List Nat → Option (List Char)
  | [] => some []
  | b :: rest =>
    if b < 0x80 then
      (utf8Decode rest).map (fun cs => Char.ofNat b :: cs)
    else if b < 0xC2 then
      none
    else if b < 0xE0 then
      match rest with
      | b1 :: rest1 =>
        if isCont b1 then
          (utf8Decode rest1).map
            (fun cs => Char.ofNat ((b - 0xC0) * 64 + contVal b1) :: cs)
        else none
      | _ => none
    else if b < 0xF0 then
      match rest with
      | b1 :: b2 :: rest2 =>
        if isCont b1 ∧ isCont b2 then
          let n := (b - 0xE0) * 4096 + contVal b1 * 64 + contVal b2
          if 0x800 ≤ n ∧ ¬ (0xD800 ≤ n ∧ n < 0xE000) then
            (utf8Decode rest2).map (fun cs => Char.ofNat n :: cs)
          else none
        else none
      | _ => none
    else if b < 0xF5 then
      match rest with
      | b1 :: b2 :: b3 :: rest3 =>
        if isCont b1 ∧ isCont b2 ∧ isCont b3 then
          let n := (b - 0xF0) * 262144 + contVal b1 * 4096 +
            contVal b2 * 64 + contVal b3
          if 0x10000 ≤ n ∧ n < 0x110000 then
            (utf8Decode rest3).map (fun cs => Char.ofNat n :: cs)
          else none
        else none
      | _ => none
    else none

/-- Percent-decoding of the URI path characters into bytes.  A `%`
followed by two hex digits becomes the encoded byte; a `%` not followed
by two hex digits passes through literally, as in the `percent-encoding`
crate used by the server.  Non-`%` characters contribute their UTF-8
bytes. -/
def percentDecodeAux : Nat → List Char → List Nat
  | 0, _ => []
  | _ + 1, [] => []
  | fuel + 1, c :: rest =>
    if c = '%' then
      match rest with
      | a :: b :: rest2 =>
        match hexVal a, hexVal b with
        | some x, some y => (16 * x + y) :: percentDecodeAux fuel rest2
        | _, _ => 37 :: percentDecodeAux fuel rest
      | _ => 37 :: percentDecodeAux fuel rest
    else utf8EncodeChar c.toNat ++ percentDecodeAux fuel rest

/-- Percent-decoding of the URI path characters into bytes.  A `%`
followed by two hex digits becomes the encoded byte; a `%` not followed
by two hex digits passes through literally, as in the `percent-encoding`
crate used by the server.  Non-`%` characters contribute their UTF-8
bytes.  Each scanning step consumes at least one character, so the
character count is enough fuel. -/
def percentDecode (l : List Char) : List Nat :=
  percentDecodeAux l.length l

/-- Splitting a character list into segments on `/` (the separators are
consumed; empty segments appear for leading, trailing and repeated
slashes). -/
def splitSlash : List Char → List (List Char)
  | [] => [[]]
  | c :: rest =>
    if c = '/' then [] :: splitSlash rest
    else
      match splitSlash rest with
      | [] => [[c]]
      | s :: ss => (c :: s) :: ss

/-- Absolute filesystem paths, as the list of path segments below the
filesystem root. -/
abbrev FilePath := List String

/-- Immutable server configuration (`Config` in `src/main.rs`): the
root directory to serve from.  The listen address plays no role in the
request pipeline and is omitted. -/
structure Config where
  root_dir : FilePath
deriving DecidableEq, Repr

/-- Kind of filesystem object found at a path. -/
inductive FileKind
  | file
  | directory
  | other
  | missing
deriving DecidableEq, Repr

/-- Classification of an I/O error, following the spec's error
taxonomy: not-found, permission-denied, and everything else. -/
inductive IoErrorKind
  | notFound
  | permissionDenied
  | other
deriving DecidableEq, Repr

/-- An I/O error together with its diagnostic message and the messages
of its underlying causes, ordered outermost to innermost (the order in
which Rust's `Error::source` chain is walked). -/
structure IoError where
  kind : IoErrorKind
  msg : String
  causes : List String
deriving DecidableEq, Repr

/-- A directory entry: its name and whether it is a subdirectory. -/
structure DirEntry where
  name : String
  isDir : Bool
deriving DecidableEq, Repr

/-- Filesystem oracle.  `canonicalize` resolves symbolic links and
redundant components (it is an arbitrary function, so theorems
quantified over `Fs` cover symbolic links pointing anywhere, including
outside the root); `stat` classifies a path; `read` yields file bytes;
`entries` enumerates a directory. -/
structure Fs where
  canonicalize : FilePath → FilePath
  stat : FilePath → FileKind
  read : FilePath → Except IoError (List Nat)
  entries : FilePath → Except IoError (List DirEntry)

/-- Modelled from the spec: the rejection reasons of the path resolver,
`reason` of the spec's `ResolvedTarget` — the resolver and its result
type are absent from `src/` (only their caller `serve` is present). -/
inductive RejectReason
  | notAbsolute
  | notUtf8
  | outsideRoot
deriving DecidableEq, Repr

/-- Modelled from the spec: the result of path resolution —
`File(absolute_path)`, `Directory(absolute_path)` or
`Rejected(reason)`. -/
inductive ResolvedTarget
  | file (p : FilePath)
  | directory (p : FilePath)
  | rejected (r : RejectReason)
deriving DecidableEq, Repr

/-- Error type of the request pipeline: a resolver rejection or an
I/O error (the resolver-level miss of a nonexistent path surfaces as a
not-found I/O error, not as a `Rejected` variant). -/
inductive ServeError
  | reject (r : RejectReason)
  | io (e : IoError)
deriving DecidableEq, Repr

instance {ε α : Type} [DecidableEq ε] [DecidableEq α] :
    DecidableEq (Except ε α) := fun x y =>
  match x, y with
  | Except.ok a, Except.ok b =>
    if h : a = b then isTrue (by rw [h]) else isFalse (by simp [h])
  | Except.error a, Except.error b =>
    if h : a = b then isTrue (by rw [h]) else isFalse (by simp [h])
  | Except.ok _, Except.error _ => isFalse (by simp)
  | Except.error _, Except.ok _ => isFalse (by simp)

/-- Result of the resolver together with the filesystem paths it
touched (canonicalization and `stat` queries), in order. -/
structure ResolveOut where
  result : Except IoError ResolvedTarget
  accesses : List FilePath
deriving DecidableEq, Repr

/-- The URI's path component characters: the request-target up to the
query part (everything before the first `?`). -/
def rawPath (uri : String) : List Char :=
  uri.data.takeWhile (fun c => c ≠ '?')

/-- Modelled from the spec: percent-decode the path component, validate
it as UTF-8, split it on `/` and discard empty segments.  `none` when
the decoded bytes are not valid UTF-8.  The returned segments still
contain any literal `.` and `..` segments. -/
def decodeSegs (uri : String) : Option (List String) :=
  (utf8Decode (percentDecode (rawPath uri))).map
    (fun ds => ((splitSlash ds).filter (fun s => s ≠ [])).map
      (fun s => String.mk s))

/-- The `..` path segment, which the resolver refuses outright. -/
def dotdot : String := ".."

/-- The I/O error the resolver synthesizes for a path that does not
exist (or is neither a regular file nor a directory). -/
def notFoundError : IoError :=
  { kind := IoErrorKind.notFound, msg := "path not found", causes := [] }

/-- Modelled from the spec: canonicalize the candidate path, verify the
canonical result is still the root or a descendant of it (otherwise
`Rejected(OutsideRoot)`), then classify it: regular file, directory, or
a miss (nonexistent paths and any other object kind are not-found). -/
def checkTarget (cfg : Config) (fs : Fs) (candidate : FilePath) : ResolveOut :=
  let canon := fs.canonicalize candidate
  if cfg.root_dir.isPrefixOf canon then
    match fs.stat canon with
    | FileKind.file =>
      { result := Except.ok (ResolvedTarget.file canon),
        accesses := [candidate, canon] }
    | FileKind.directory =>
      { result := Except.ok (ResolvedTarget.directory canon),
        accesses := [candidate, canon] }
    | _ =>
      { result := Except.error notFoundError,
        accesses := [candidate, canon] }
  else
    { result := Except.ok (ResolvedTarget.rejected RejectReason.outsideRoot),
      accesses := [candidate] }

/-- Modelled from the spec: the path resolver.  Requires the path
component to begin with `/` (else `Rejected(NotAbsolute)`);
percent-decodes and validates UTF-8 (else `Rejected(NotUtf8)`); splits
into segments, discards empty segments, rejects outright with
`Rejected(OutsideRoot)` if any segment is exactly `..` — before any
filesystem access and with no `..`-collapsing — drops `.` segments,
joins the rest onto the root, canonicalizes and checks containment. -/
def resolve (cfg : Config) (fs : Fs) (uri : String) : ResolveOut :=
  match rawPath uri with
  | '/' :: _ =>
    match decodeSegs uri with
    | none =>
      { result := Except.ok (ResolvedTarget.rejected RejectReason.notUtf8),
        accesses := [] }
    | some segs =>
      if segs.contains dotdot then
        { result := Except.ok (ResolvedTarget.rejected RejectReason.outsideRoot),
          accesses := [] }
      else
        checkTarget cfg fs (cfg.root_dir ++ segs.filter (fun s => s ≠ "."))
  | _ =>
    { result := Except.ok (ResolvedTarget.rejected RejectReason.notAbsolute),
      accesses := [] }

/-- An HTTP response: status code, headers in insertion order, and body
bytes. -/
structure Response where
  status : Nat
  headers : List (String × String)
  body : List Nat
deriving DecidableEq, Repr

/-- Name of the `Content-Length` header. -/
def contentLength : String := "Content-Length"

/-- Name of the `Content-Type` header. -/
def contentType : String := "Content-Type"

/-- First value bound to a header name in a header list. -/
def lookupHeader : List (String × String) → String → Option String
  | [], _ => none
  | (n, v) :: rest, name => if n = name then some v else lookupHeader rest name

/-- Value of a named header of a response, when present. -/
def headerValue (r : Response) (name : String) : Option String :=
  lookupHeader r.headers name

/-- Modelled from the spec: extension of a file name — the part after
the last `.`, when the name contains one. -/
def extOf (name : String) : Option String :=
  if name.data.contains '.' then
    some (String.mk ((name.data.reverse.takeWhile (fun c => c ≠ '.')).reverse))
  else none

/-- Modelled from the spec: the fixed extension-to-MIME table, with
`application/octet-stream` as the fallback for unrecognized
extensions. -/
def mimeFor : Option String → String
  | some "html" => "text/html"
  | some "htm" => "text/html"
  | some "css" => "text/css"
  | some "js" => "application/javascript"
  | some "json" => "application/json"
  | some "png" => "image/png"
  | some "jpg" => "image/jpeg"
  | some "jpeg" => "image/jpeg"
  | some "gif" => "image/gif"
  | some "txt" => "text/plain"
  | _ => "application/octet-stream"

/-- Modelled from the spec: serve the bytes of a regular file —
status 200, `Content-Length` exactly the byte count, `Content-Type`
from the extension table; a read failure is returned as the I/O error.
Also records the read access. -/
def serveFile (fs : Fs) (p : FilePath) :
    Except ServeError Response × List FilePath :=
  match fs.read p with
  | Except.error e => (Except.error (ServeError.io e), [p])
  | Except.ok bytes =>
    (Except.ok
      { status := 200,
        headers :=
          [(contentLength, toString bytes.length),
           (contentType, mimeFor (extOf (p.getLastD (""))))],
        body := bytes }, [p])

/-- One line of the synthesized directory listing: a link per entry,
directory names suffixed with `/`. -/
def entryLine (e : DirEntry) : String :=
  let n := if e.isDir then e.name ++ "/" else e.name
  "<li><a href=\"" ++ n ++ "\">" ++ n ++ "</a></li>"

/-- Modelled from the spec: the synthesized HTML listing of a
directory's immediate entries. -/
def renderListing (es : List DirEntry) : String :=
  "<html><body><ul>" ++ String.join (es.map entryLine) ++ "</ul></body></html>"

/-- Modelled from the spec: `serve_or_error` — resolve the URI, then
build the success response: file contents for `File`; for `Directory`,
the contents of its `index.html` when that entry is a regular file,
otherwise the synthesized `text/html` listing of the immediate entries.
Rejections and I/O errors are returned as errors.  The second component
is the ordered list of filesystem accesses. -/
def serve_or_error (cfg : Config) (fs : Fs) (uri : String) :
    Except ServeError Response × List FilePath :=
  let ro := resolve cfg fs uri
  match ro.result with
  | Except.error e => (Except.error (ServeError.io e), ro.accesses)
  | Except.ok (ResolvedTarget.rejected r) =>
    (Except.error (ServeError.reject r), ro.accesses)
  | Except.ok (ResolvedTarget.file p) =>
    let sf := serveFile fs p
    (sf.1, ro.accesses ++ sf.2)
  | Except.ok (ResolvedTarget.directory p) =>
    let ip := p ++ ["index.html"]
    match fs.stat ip with
    | FileKind.file =>
      let sf := serveFile fs ip
      (sf.1, ro.accesses ++ [ip] ++ sf.2)
    | _ =>
      match fs.entries p with
      | Except.error e =>
        (Except.error (ServeError.io e), ro.accesses ++ [ip, p])
      | Except.ok es =>
        let bytes := strBytes (renderListing es)
        (Except.ok
          { status := 200,
            headers :=
              [(contentLength, toString bytes.length),
               (contentType, "text/html")],
            body := bytes }, ro.accesses ++ [ip, p])

/-- A short diagnostic error response: the status code and a short
generic plain-text body that reveals no path or internal detail. -/
def errorResponse (status : Nat) (txt : String) : Response :=
  let b := strBytes txt
  { status := status,
    headers :=
      [(contentLength, toString b.length),
       (contentType, "text/plain")],
    body := b }

/-- Modelled from the spec: the short diagnostic text of each resolver
rejection (never revealing the resolved path). -/
def rejectText : RejectReason → String
  | RejectReason.notAbsolute => "requested URI is not an absolute path"
  | RejectReason.notUtf8 => "requested URI is not UTF-8"
  | RejectReason.outsideRoot => "bad request"

/-- Translated from `log_error_chain` in `src/main.rs`: the emitted log
lines — the top-level error message, then one `caused by:` line per
underlying cause, walking the source chain outermost to innermost. -/
def log_error_chain (msg : String) (causes : List String) : List String :=
  ("error: " ++ msg) :: causes.map (fun c => "caused by: " ++ c)

/-- The generic body text of a 500 response; the error detail goes only
to the server-side log. -/
def internalErrorText : String := "internal server error"

/-- Modelled from the spec: `transform_error` — map a pipeline outcome
to the final response plus the log lines it emits.  Rejections are 400;
not-found is 404; permission-denied is 403; every other I/O or internal
failure is 500 with a generic body, its full cause chain logged via
`log_error_chain`. -/
def transform_error : Except ServeError Response → Response × List String
  | Except.ok r => (r, [])
  | Except.error (ServeError.reject r) => (errorResponse 400 (rejectText r), [])
  | Except.error (ServeError.io e) =>
    match e.kind with
    | IoErrorKind.notFound => (errorResponse 404 "not found", [])
    | IoErrorKind.permissionDenied => (errorResponse 403 "forbidden", [])
    | IoErrorKind.other =>
      (errorResponse 500 internalErrorText, log_error_chain e.msg e.causes)

/-- Request methods as far as the core distinguishes them. -/
inductive Method
  | get
  | head
  | other
deriving DecidableEq, Repr

/-- Outcome of handling one request: the terminal response, the log
lines emitted while producing it, and the filesystem accesses made. -/
structure Handled where
  response : Response
  logs : List String
  accesses : List FilePath
deriving DecidableEq, Repr

/-- Translated from `serve` in `src/main.rs` (body filling modelled
from the spec): run `serve_or_error`, transform errors into error
responses via `transform_error`, and for `HEAD` keep the identical
status and headers but strip the body.  Always returns a response. -/
def handle (cfg : Config) (fs : Fs) (m : Method) (uri : String) : Handled :=
  let so := serve_or_error cfg fs uri
  let te := transform_error so.1
  let resp :=
    match m with
    | Method.head => { te.1 with body := [] }
    | _ => te.1
  { response := resp, logs := te.2, accesses := so.2 }

/-- Observable events of one request, in order: filesystem accesses,
then log lines, then the single transmission of the terminal
response. -/
inductive Event
  | access (p : FilePath)
  | log (s : String)
  | send (r : Response)
deriving DecidableEq, Repr

/-- Whether an event is the transmission of a response. -/
def Event.isSend : Event → Bool
  | Event.send _ => true
  | _ => false

/-- The ordered event trace of one request. -/
def serveEvents (cfg : Config) (fs : Fs) (m : Method) (uri : String) :
    List Event :=
  let h := handle cfg fs m uri
  h.accesses.map Event.access ++ h.logs.map Event.log ++
    [Event.send h.response]

/-- Translated from the `Error` enum in `src/main.rs`: the blanket
variants wrapping external-library errors (`Http`, `Hyper`, `Io`,
`AddrParse`) and the semantic variants (`UriNotAbsolute`,
`UriNotUtf8`).  The payloads of the blanket variants only contribute
their display text here, which the enum's own messages do not use. -/
inductive Error
  | http
  | hyper
  | io
  | addrParse
  | uriNotAbsolute
  | uriNotUtf8
deriving DecidableEq, Repr

/-- Display text of each `Error` variant, from the `#[error(...)]`
attributes in `src/main.rs`. -/
def Error.message : Error → String
  | Error.http => "HTTP error"
  | Error.hyper => "Hyper error"
  | Error.io => "I/O error"
  | Error.addrParse => "failed to parse IP address"
  | Error.uriNotAbsolute => "requested URI is not an absolute path"
  | Error.uriNotUtf8 => "requested URI is not UTF-8"

/-- Cause chain of an `Error` value: no variant field is marked as a
source in `src/main.rs`, so the `source()` chain below the top-level
message is empty. -/
def Error.sources : Error → List String := fun _ => []

/-- Translated from `main` in `src/main.rs`: given the outcome of
`run()`, emit `log_error_chain`'s lines when it failed, and finish with
the process exit status — `main` returns `()` on both branches, so the
exit status is `0` either way. -/
def mainEntry (runResult : Except Error Unit) : List String × Nat :=
  match runResult with
  | Except.error e => (log_error_chain e.message e.sources, 0)
  | Except.ok _ => ([], 0)

/-! Concrete fixtures used by the witness theorems: a root `/srv/www`
holding `index.html`, `img/logo.png` and an `img` subdirectory, with an
identity canonicalization; and variants with a failing read and an
escaping symbolic link. -/

/-- The fixture root directory `/srv/www`. -/
def testRoot : FilePath := ["srv", "www"]

/-- The fixture server configuration. -/
def testCfg : Config := { root_dir := testRoot }

/-- Bytes of the fixture `index.html`. -/
def indexBytes : List Nat := strBytes "<h1>hello</h1>"

/-- Bytes of the fixture `img/logo.png`. -/
def logoBytes : List Nat := [137, 80, 78, 71]

/-- The fixture filesystem: identity canonicalization, the files and
directories of the fixture tree, not-found reads elsewhere. -/
def testFs : Fs :=
  { canonicalize := fun p => p,
    stat := fun p =>
      if p = ["srv", "www"] then FileKind.directory
      else if p = ["srv", "www", "index.html"] then FileKind.file
      else if p = ["srv", "www", "img"] then FileKind.directory
      else if p = ["srv", "www", "img", "logo.png"] then FileKind.file
      else FileKind.missing,
    read := fun p =>
      if p = ["srv", "www", "index.html"] then Except.ok indexBytes
      else if p = ["srv", "www", "img", "logo.png"] then Except.ok logoBytes
      else Except.error { kind := IoErrorKind.notFound,
                          msg := "No such file or directory",
                          causes := [] },
    entries := fun p =>
      if p = ["srv", "www", "img"] then
        Except.ok [{ name := "logo.png", isDir := false }]
      else Except.ok [] }

/-- The I/O failure of the failing fixture: an unclassified error with
a two-element cause chain. -/
def diskError : IoError :=
  { kind := IoErrorKind.other,
    msg := "I/O error",
    causes := ["device failure", "bus timeout"] }

/-- A fixture filesystem whose only file `boom.txt` exists but fails to
read with `diskError`. -/
def failFs : Fs :=
  { canonicalize := fun p => p,
    stat := fun p =>
      if p = ["srv", "www"] then FileKind.directory
      else if p = ["srv", "www", "boom.txt"] then FileKind.file
      else FileKind.missing,
    read := fun _ => Except.error diskError,
    entries := fun _ => Except.ok [] }

/-- A fixture filesystem in which `link` is a symbolic link whose
canonicalization escapes the root to `/etc/passwd`. -/
def symlinkFs : Fs :=
  { canonicalize := fun p =>
      if p = ["srv", "www", "link"] then ["etc", "passwd"] else p,
    stat := fun p =>
      if p = ["srv", "www"] then FileKind.directory
      else if p = ["etc", "passwd"] then FileKind.file
      else FileKind.missing,
    read := fun _ => Except.error { kind := IoErrorKind.notFound,
                                    msg := "No such file or directory",
                                    causes := [] },
    entries := fun _ => Except.ok [] }

/-- Fixture URI for the root path. -/
def uriRoot : String := "/"

/-- Fixture URI for `/index.html`. -/
def uriIndex : String := "/index.html"

/-- Fixture URI for `/img/logo.png`. -/
def uriLogo : String := "/img/logo.png"

/-- Fixture URI with a literal `..` traversal segment. -/
def uriTraversal : String := "/../etc/passwd"

/-- Fixture URI with a percent-encoded `..` traversal segment. -/
def uriEncTraversal : String := "/%2e%2e/etc/passwd"

/-- Fixture URI for the escaping symbolic link `/link`. -/
def uriLink : String := "/link"

/-- Fixture URI for the unreadable file `/boom.txt`. -/
def uriBoom : String := "/boom.txt"

/-- Fixture URI for a missing file. -/
def uriMissing : String := "/missing.txt"

/-- Any `File`/`Directory` result of `checkTarget` carries a path that
passed the containment check against the root. -/
theorem checkTarget_inside (cfg : Config) (fs : Fs) (cand p : FilePath)
    (h : (checkTarget cfg fs cand).result = Except.ok (ResolvedTarget.file p) ∨
         (checkTarget cfg fs cand).result =
           Except.ok (ResolvedTarget.directory p)) :
    cfg.root_dir.isPrefixOf p = true := by
  rcases h with h | h <;>
  · simp only [checkTarget] at h
    split at h
    · split at h <;> simp_all
    · simp_all

/-- C1: for every server configuration, filesystem state and request
URI, a `File` or `Directory` result of the path resolver carries an
absolute path equal to the configured root directory or a descendant of
it — the filesystem oracle is arbitrary, so this covers encoded
traversal sequences and symbolic-link escapes. -/
theorem resolve_result_inside_root (cfg : Config) (fs : Fs) (uri : String)
    (p : FilePath)
    (h : (resolve cfg fs uri).result = Except.ok (ResolvedTarget.file p) ∨
         (resolve cfg fs uri).result =
           Except.ok (ResolvedTarget.directory p)) :
    cfg.root_dir.isPrefixOf p = true := by
  simp only [resolve] at h
  split at h
  · split at h
    · rcases h with h | h <;> simp at h
    · split at h
      · rcases h with h | h <;> simp at h
      · exact checkTarget_inside cfg fs _ p h
  · rcases h with h | h <;> simp at h

/-- Witness for C1: on the fixture tree, `/index.html` resolves to a
file and its path extends the root. -/
theorem resolve_result_inside_root_witness :
    ((resolve testCfg testFs uriIndex).result =
        Except.ok (ResolvedTarget.file ["srv", "www", "index.html"]) ∨
      (resolve testCfg testFs uriIndex).result =
        Except.ok (ResolvedTarget.directory ["srv", "www", "index.html"])) ∧
    testCfg.root_dir.isPrefixOf ["srv", "www", "index.html"] = true :=
  ⟨Or.inl (by decide),
    resolve_result_inside_root testCfg testFs uriIndex
      ["srv", "www", "index.html"] (Or.inl (by decide))⟩

/-- C2: if the decoded path of an absolute URI contains a segment
exactly equal to `..`, the resolver rejects it outright as
`OutsideRoot` (no `..`-collapsing, identically for every filesystem
oracle), no filesystem access at all is performed, and the terminal
response status is 400. -/
theorem dotdot_rejected_no_access (cfg : Config) (fs : Fs) (uri : String)
    (segs : List String)
    (habs : (rawPath uri).head? = some '/')
    (hsegs : decodeSegs uri = some segs)
    (hdd : segs.contains dotdot = true) :
    (resolve cfg fs uri).result =
      Except.ok (ResolvedTarget.rejected RejectReason.outsideRoot) ∧
    (resolve cfg fs uri).accesses = [] ∧
    (handle cfg fs Method.get uri).response.status = 400 := by
  obtain ⟨t, hr⟩ : ∃ t, rawPath uri = '/' :: t := by
    cases hh : rawPath uri with
    | nil => simp [hh] at habs
    | cons c t =>
      rw [hh] at habs
      simp at habs
      exact ⟨t, by rw [habs]⟩
  have h1 : resolve cfg fs uri =
      { result := Except.ok (ResolvedTarget.rejected RejectReason.outsideRoot),
        accesses := [] } := by
    have hmem : dotdot ∈ segs := by simpa using hdd
    simp only [resolve]
    rw [hr]
    simp [hsegs, hmem]
  refine ⟨by rw [h1], by rw [h1], ?_⟩
  simp [handle, serve_or_error, h1, transform_error, errorResponse]

/-- Witness for C2: `/../etc/passwd` on the fixture tree. -/
theorem dotdot_rejected_no_access_witness :
    ((rawPath uriTraversal).head? = some '/' ∧
      decodeSegs uriTraversal = some ["..", "etc", "passwd"] ∧
      (["..", "etc", "passwd"] : List String).contains dotdot = true) ∧
    ((resolve testCfg testFs uriTraversal).result =
        Except.ok (ResolvedTarget.rejected RejectReason.outsideRoot) ∧
      (resolve testCfg testFs uriTraversal).accesses = [] ∧
      (handle testCfg testFs Method.get uriTraversal).response.status = 400) :=
  ⟨⟨by decide, by decide, by decide⟩,
    dotdot_rejected_no_access testCfg testFs uriTraversal
      ["..", "etc", "passwd"] (by decide) (by decide) (by decide)⟩

/-- C3: a resolver rejection reason is always one of exactly
`NotAbsolute`, `NotUtf8` and `OutsideRoot`, and an out-of-root
resolution (the fixture symbolic link escaping to `/etc/passwd`) is
reported with the `OutsideRoot` reason, distinct from the other two. -/
theorem reject_reason_taxonomy :
    (∀ (cfg : Config) (fs : Fs) (uri : String) (r : RejectReason),
      (resolve cfg fs uri).result = Except.ok (ResolvedTarget.rejected r) →
        r = RejectReason.notAbsolute ∨ r = RejectReason.notUtf8 ∨
          r = RejectReason.outsideRoot) ∧
    (resolve testCfg symlinkFs uriLink).result =
      Except.ok (ResolvedTarget.rejected RejectReason.outsideRoot) ∧
    RejectReason.outsideRoot ≠ RejectReason.notAbsolute ∧
    RejectReason.outsideRoot ≠ RejectReason.notUtf8 := by
  refine ⟨fun cfg fs uri r _ => ?_, by decide, by decide, by decide⟩
  cases r
  · exact Or.inl rfl
  · exact Or.inr (Or.inl rfl)
  · exact Or.inr (Or.inr rfl)

/-- Witness for C3: the literal traversal URI is rejected, and its
reason lies in the three-value taxonomy. -/
theorem reject_reason_taxonomy_witness :
    (resolve testCfg testFs uriTraversal).result =
      Except.ok (ResolvedTarget.rejected RejectReason.outsideRoot) ∧
    (RejectReason.outsideRoot = RejectReason.notAbsolute ∨
      RejectReason.outsideRoot = RejectReason.notUtf8 ∨
      RejectReason.outsideRoot = RejectReason.outsideRoot) :=
  ⟨by decide,
    reject_reason_taxonomy.1 testCfg testFs uriTraversal
      RejectReason.outsideRoot (by decide)⟩

/-- C4: the error class determines the response status — `NotAbsolute`
and `NotUtf8` give 400; `OutsideRoot` gives 400 and deliberately not
403; not-found gives 404; permission-denied gives 403; every other I/O
or internal failure gives 500 with the generic body, its detail
appearing only in the logged cause chain. -/
theorem error_status_mapping :
    (transform_error (Except.error
      (ServeError.reject RejectReason.notAbsolute))).1.status = 400 ∧
    (transform_error (Except.error
      (ServeError.reject RejectReason.notUtf8))).1.status = 400 ∧
    ((transform_error (Except.error
        (ServeError.reject RejectReason.outsideRoot))).1.status = 400 ∧
      (transform_error (Except.error
        (ServeError.reject RejectReason.outsideRoot))).1.status ≠ 403) ∧
    (∀ (msg : String) (causes : List String),
      (transform_error (Except.error (ServeError.io
        { kind := IoErrorKind.notFound, msg := msg,
          causes := causes }))).1.status = 404) ∧
    (∀ (msg : String) (causes : List String),
      (transform_error (Except.error (ServeError.io
        { kind := IoErrorKind.permissionDenied, msg := msg,
          causes := causes }))).1.status = 403) ∧
    (∀ (msg : String) (causes : List String),
      (transform_error (Except.error (ServeError.io
        { kind := IoErrorKind.other, msg := msg,
          causes := causes }))).1.status = 500 ∧
      (transform_error (Except.error (ServeError.io
        { kind := IoErrorKind.other, msg := msg,
          causes := causes }))).1.body = strBytes internalErrorText ∧
      (transform_error (Except.error (ServeError.io
        { kind := IoErrorKind.other, msg := msg,
          causes := causes }))).2 = log_error_chain msg causes) := by
  refine ⟨rfl, rfl, ⟨rfl, by decide⟩, fun _ _ => rfl, fun _ _ => rfl,
    fun msg causes => ⟨rfl, rfl, rfl⟩⟩

/-- C5: a URI resolving to an existing regular file whose read yields
`bytes` produces status 200, a `Content-Length` header of exactly
`bytes.length`, and a body equal to the file's bytes. -/
theorem file_response_roundtrip (cfg : Config) (fs : Fs) (uri : String)
    (p : FilePath) (bytes : List Nat)
    (h1 : (resolve cfg fs uri).result = Except.ok (ResolvedTarget.file p))
    (h2 : fs.read p = Except.ok bytes) :
    (handle cfg fs Method.get uri).response.status = 200 ∧
    headerValue (handle cfg fs Method.get uri).response contentLength =
      some (toString bytes.length) ∧
    (handle cfg fs Method.get uri).response.body = bytes := by
  simp [handle, serve_or_error, h1, serveFile, h2, transform_error,
    headerValue, lookupHeader]

/-- Witness for C5: `/img/logo.png` on the fixture tree. -/
theorem file_response_roundtrip_witness :
    ((resolve testCfg testFs uriLogo).result =
        Except.ok (ResolvedTarget.file ["srv", "www", "img", "logo.png"]) ∧
      testFs.read ["srv", "www", "img", "logo.png"] = Except.ok logoBytes) ∧
    ((handle testCfg testFs Method.get uriLogo).response.status = 200 ∧
      headerValue (handle testCfg testFs Method.get uriLogo).response
          contentLength = some (toString logoBytes.length) ∧
      (handle testCfg testFs Method.get uriLogo).response.body = logoBytes) :=
  ⟨⟨by decide, by decide⟩,
    file_response_roundtrip testCfg testFs uriLogo
      ["srv", "www", "img", "logo.png"] logoBytes (by decide) (by decide)⟩

/-- C6: when one URI resolves to a directory whose `index.html` entry
is a regular file and another URI resolves to exactly that
`<dir>/index.html` file, both requests produce the same terminal
response (status, headers and body). -/
theorem directory_index_equivalence (cfg : Config) (fs : Fs)
    (u u' : String) (p : FilePath)
    (h1 : (resolve cfg fs u).result = Except.ok (ResolvedTarget.directory p))
    (h2 : fs.stat (p ++ ["index.html"]) = FileKind.file)
    (h3 : (resolve cfg fs u').result =
      Except.ok (ResolvedTarget.file (p ++ ["index.html"]))) :
    (handle cfg fs Method.get u).response =
      (handle cfg fs Method.get u').response := by
  simp [handle, serve_or_error, h1, h2, h3]

/-- Witness for C6: requesting `/` and `/index.html` on the fixture
tree gives the same response. -/
theorem directory_index_equivalence_witness :
    ((resolve testCfg testFs uriRoot).result =
        Except.ok (ResolvedTarget.directory ["srv", "www"]) ∧
      testFs.stat (["srv", "www"] ++ ["index.html"]) = FileKind.file ∧
      (resolve testCfg testFs uriIndex).result =
        Except.ok (ResolvedTarget.file (["srv", "www"] ++ ["index.html"]))) ∧
    (handle testCfg testFs Method.get uriRoot).response =
      (handle testCfg testFs Method.get uriIndex).response :=
  ⟨⟨by decide, by decide, by decide⟩,
    directory_index_equivalence testCfg testFs uriRoot uriIndex
      ["srv", "www"] (by decide) (by decide) (by decide)⟩

/-- C7: for a URI resolving to an existing file, a `HEAD` request gets
the identical status and headers as the equivalent `GET` (identical
resolution and header computation) and an empty body. -/
theorem head_matches_get (cfg : Config) (fs : Fs) (uri : String)
    (p : FilePath)
    (_h : (resolve cfg fs uri).result = Except.ok (ResolvedTarget.file p)) :
    (handle cfg fs Method.head uri).response.headers =
      (handle cfg fs Method.get uri).response.headers ∧
    (handle cfg fs Method.head uri).response.status =
      (handle cfg fs Method.get uri).response.status ∧
    (handle cfg fs Method.head uri).response.body = [] := by
  refine ⟨?_, ?_, ?_⟩ <;> simp [handle]

/-- Witness for C7: `HEAD /index.html` against `GET /index.html` on
the fixture tree. -/
theorem head_matches_get_witness :
    (resolve testCfg testFs uriIndex).result =
      Except.ok (ResolvedTarget.file ["srv", "www", "index.html"]) ∧
    ((handle testCfg testFs Method.head uriIndex).response.headers =
        (handle testCfg testFs Method.get uriIndex).response.headers ∧
      (handle testCfg testFs Method.head uriIndex).response.status =
        (handle testCfg testFs Method.get uriIndex).response.status ∧
      (handle testCfg testFs Method.head uriIndex).response.body = []) :=
  ⟨by decide,
    head_matches_get testCfg testFs uriIndex ["srv", "www", "index.html"]
      (by decide)⟩

/-- The handled response's status does not depend on the method: it is
the status computed by `transform_error`. -/
theorem handle_status_eq (cfg : Config) (fs : Fs) (m : Method)
    (uri : String) :
    (handle cfg fs m uri).response.status =
      (transform_error (serve_or_error cfg fs uri).1).1.status := by
  cases m <;> simp [handle]

/-- The handled request's log lines are those of `transform_error`. -/
theorem handle_logs_eq (cfg : Config) (fs : Fs) (m : Method)
    (uri : String) :
    (handle cfg fs m uri).logs =
      (transform_error (serve_or_error cfg fs uri).1).2 := by
  cases m <;> simp [handle]

/-- A successful `serveFile` response always has status 200. -/
theorem serveFile_ok_status (fs : Fs) (p : FilePath) (r : Response)
    (h : (serveFile fs p).1 = Except.ok r) : r.status = 200 := by
  simp only [serveFile] at h
  split at h
  · simp at h
  · simp at h
    subst h
    rfl

/-- A successful pipeline response always has status 200. -/
theorem serve_or_error_ok_status (cfg : Config) (fs : Fs) (uri : String)
    (r : Response) (h : (serve_or_error cfg fs uri).1 = Except.ok r) :
    r.status = 200 := by
  simp only [serve_or_error] at h
  split at h
  · simp at h
  · simp at h
  · exact serveFile_ok_status fs _ r (by simpa using h)
  · split at h
    · exact serveFile_ok_status fs _ r (by simpa using h)
    · split at h
      · simp at h
      · simp at h
        subst h
        rfl

/-- C8: when the terminal response of a request has status 500, the
failure was an unclassified I/O error, the handler's log lines are
exactly `log_error_chain` of its message and causes (outermost first),
and in the event trace every log line precedes the single transmission
of the generic response. -/
theorem internal_error_logged (cfg : Config) (fs : Fs) (m : Method)
    (uri : String)
    (h : (handle cfg fs m uri).response.status = 500) :
    ∃ e : IoError,
      (serve_or_error cfg fs uri).1 = Except.error (ServeError.io e) ∧
      e.kind = IoErrorKind.other ∧
      (handle cfg fs m uri).logs = log_error_chain e.msg e.causes ∧
      serveEvents cfg fs m uri =
        (handle cfg fs m uri).accesses.map Event.access ++
          (log_error_chain e.msg e.causes).map Event.log ++
          [Event.send (handle cfg fs m uri).response] := by
  rw [handle_status_eq] at h
  rcases hso : (serve_or_error cfg fs uri).1 with e | r
  · rw [hso] at h
    rcases e with r' | e'
    · simp [transform_error, errorResponse] at h
    · rcases e' with ⟨k, msg, causes⟩
      cases k
      · simp [transform_error, errorResponse] at h
      · simp [transform_error, errorResponse] at h
      · have hl : (handle cfg fs m uri).logs = log_error_chain msg causes := by
          rw [handle_logs_eq, hso]
          simp [transform_error]
        exact ⟨⟨IoErrorKind.other, msg, causes⟩, rfl, rfl, hl,
          by simp [serveEvents, hl]⟩
  · rw [hso] at h
    have h200 := serve_or_error_ok_status cfg fs uri r hso
    simp [transform_error] at h
    omega

/-- Witness for C8: reading `/boom.txt` on the failing fixture
filesystem produces a 500 whose cause chain is logged before the
response is sent. -/
theorem internal_error_logged_witness :
    (handle testCfg failFs Method.get uriBoom).response.status = 500 ∧
    ∃ e : IoError,
      (serve_or_error testCfg failFs uriBoom).1 =
        Except.error (ServeError.io e) ∧
      e.kind = IoErrorKind.other ∧
      (handle testCfg failFs Method.get uriBoom).logs =
        log_error_chain e.msg e.causes ∧
      serveEvents testCfg failFs Method.get uriBoom =
        (handle testCfg failFs Method.get uriBoom).accesses.map Event.access ++
          (log_error_chain e.msg e.causes).map Event.log ++
          [Event.send (handle testCfg failFs Method.get uriBoom).response] :=
  ⟨by decide,
    internal_error_logged testCfg failFs Method.get uriBoom (by decide)⟩

/-- Filesystem-access events are never response transmissions. -/
theorem filter_isSend_map_access (l : List FilePath) :
    (l.map Event.access).filter Event.isSend = [] := by
  induction l with
  | nil => rfl
  | cons a t ih => simp [Event.isSend, ih]

/-- Log events are never response transmissions. -/
theorem filter_isSend_map_log (l : List String) :
    (l.map Event.log).filter Event.isSend = [] := by
  induction l with
  | nil => rfl
  | cons a t ih => simp [Event.isSend, ih]

/-- C9: every request's event trace contains exactly one transmission
of a terminal response — errors are converted into error responses,
never propagated — and the terminal status is always one of the five
mapped statuses 200, 400, 403, 404 and 500. -/
theorem single_terminal_response (cfg : Config) (fs : Fs) (m : Method)
    (uri : String) :
    (serveEvents cfg fs m uri).filter Event.isSend =
      [Event.send (handle cfg fs m uri).response] ∧
    (handle cfg fs m uri).response.status ∈
      ([200, 400, 403, 404, 500] : List Nat) := by
  constructor
  · simp [serveEvents, List.filter_append, filter_isSend_map_access,
      filter_isSend_map_log, Event.isSend]
  · rw [handle_status_eq]
    rcases hso : (serve_or_error cfg fs uri).1 with e | r
    · rcases e with r' | e'
      · cases r' <;> simp [transform_error, errorResponse]
      · rcases e' with ⟨k, msg, causes⟩
        cases k <;> simp [transform_error, errorResponse]
    · have h200 := serve_or_error_ok_status cfg fs uri r hso
      simp [transform_error, h200]

/-- C10: when `run()` fails with any error, `main` logs the error's
full cause chain — the top-level message first, then each underlying
cause — and terminates normally with exit status 0. -/
theorem main_failure_normal_exit (e : Error) :
    mainEntry (Except.error e) = (log_error_chain e.message e.sources, 0) ∧
    (mainEntry (Except.error e)).1.head? = some ("error: " ++ e.message) ∧
    (mainEntry (Except.error e)).2 = 0 := by
  refine ⟨rfl, ?_, rfl⟩
  simp [mainEntry, log_error_chain]
